import Mathlib

/-!
Verification of the `AutonomousAgent` task-loop controller.

The controller is a small state machine owning a mutable task queue, a
run/stop flag, a loop counter and bookkeeping lists.  We embed it shallowly:
the mutable object becomes an explicit `AgentState` record, the message sink
becomes the list of delivered messages, the external shutdown hook becomes a
counter of invocations, and the external task-execution capability becomes a
function parameter `exec : String → ExecOutcome`.  JavaScript exceptions
thrown by the remote call are modelled by the `Option JsError` component of
the result of `loop`/`run` (the exception that propagates to the caller),
and JavaScript truthiness of optional strings / numbers is modelled
explicitly.
-/

namespace StartRight

/-- A status message delivered to the message sink
(`type` / optional `info` / `value`, as in the source `Message` type). -/
structure Message where
  type : String
  info : Option String
  value : String
  deriving DecidableEq, Repr

/-- Configuration record (`ModelSettings`): optional custom credential,
model name, optional loop-cap override. -/
structure ModelSettings where
  customApiKey : Option String
  customModelName : String
  customMaxLoops : Option Nat
  deriving DecidableEq, Repr

/-- Session context: `session?.user.subscriptionId` is the only field the
controller reads. -/
structure Session where
  subscriptionId : Option String
  deriving DecidableEq, Repr

/-- JavaScript truthiness of an optional string (`!!x`):
`undefined` and the empty string are falsy. -/
def strTruthy : Option String → Bool
  | none => false
  | some s => s ≠ ""

/-- JavaScript truthiness of an optional number (`!!x` / `x || d`):
`undefined` and `0` are falsy. -/
def natTruthy : Option Nat → Bool
  | none => false
  | some n => n ≠ 0

/-- A failure raised by the execution call: whether it is an axios error,
and its HTTP response status when present. -/
structure JsError where
  isAxios : Bool
  status : Option Nat
  deriving DecidableEq, Repr

/-- Outcome of one invocation of the external task-execution capability. -/
inductive ExecOutcome where
  | success (result : String)
  | failure (isAxios : Bool) (status : Option Nat)
  deriving DecidableEq, Repr

/-- The controller state: the fields of the `AutonomousAgent` object,
plus the observable effects (messages delivered to the sink, number of
invocations of the shutdown hook). -/
structure AgentState where
  goal : String
  modelSettings : ModelSettings
  session : Option Session
  tasks : List String
  completedTasks : List String
  runningTasks : List String
  isRunning : Bool
  numLoops : Nat
  messages : List Message
  shutdownCount : Nat
  deriving DecidableEq, Repr

/-- Construction (`new AutonomousAgent(...)`): empty queues, `isRunning = true`,
`numLoops = 0`; no message delivered yet, shutdown not invoked. -/
def mkAgent (goal : String) (ms : ModelSettings) (sess : Option Session) : AgentState :=
  { goal := goal
    modelSettings := ms
    session := sess
    tasks := []
    completedTasks := []
    runningTasks := []
    isRunning := true
    numLoops := 0
    messages := []
    shutdownCount := 0 }

/-- The external shutdown hook: we record each invocation. -/
def shutdown (s : AgentState) : AgentState :=
  { s with shutdownCount := s.shutdownCount + 1 }

/-- The `sendMessage` guard: deliver to the sink only while `isRunning` is true. -/
def sendMessage (s : AgentState) (m : Message) : AgentState :=
  if s.isRunning then { s with messages := s.messages ++ [m] } else s

/-- The "goal" message. -/
def goalMessage (g : String) : Message := ⟨"goal", none, g⟩

/-- The "thinking" message (empty payload). -/
def thinkingMessage : Message := ⟨"thinking", none, ""⟩

/-- The "task" message for one decomposed task. -/
def taskMessage (t : String) : Message := ⟨"task", none, t⟩

/-- The cap-exceeded "system" message text, which depends on whether a custom
credential is configured. -/
def loopMessageValue (ms : ModelSettings) : String :=
  if strTruthy ms.customApiKey then
    "This agent has maxed out on loops. To save your wallet, this agent is shutting down. You can configure the number of loops in the advanced settings."
  else
    "We're sorry, because this is a demo, we cannot have our agents running for too long. Note, if you desire longer runs, please provide your own API key in Settings. Shutting down."

/-- The manual-shutdown "system" message. -/
def manualShutdownMessage : Message :=
  ⟨"system", none, "The agent has been manually shutdown."⟩

/-- The natural-completion "system" message. -/
def completedMessage : Message :=
  ⟨"system", none, "All tasks completed. Shutting down."⟩

/-- The rate-limit "system" message emitted on an HTTP 429 failure. -/
def rateLimitMessage : Message :=
  ⟨"system", none, "Rate limit exceeded. Please slow down. 😅"⟩

/-- The "action" message reporting one executed task and its result. -/
def executionMessage (task execution : String) : Message :=
  ⟨"action", some ("Executing \"" ++ task ++ "\""), execution⟩

def sendGoalMessage (s : AgentState) : AgentState :=
  sendMessage s (goalMessage s.goal)

def sendLoopMessage (s : AgentState) : AgentState :=
  sendMessage s ⟨"system", none, loopMessageValue s.modelSettings⟩

def sendManualShutdownMessage (s : AgentState) : AgentState :=
  sendMessage s manualShutdownMessage

def sendCompletedMessage (s : AgentState) : AgentState :=
  sendMessage s completedMessage

def sendThinkingMessage (s : AgentState) : AgentState :=
  sendMessage s thinkingMessage

def sendTaskMessage (s : AgentState) (t : String) : AgentState :=
  sendMessage s (taskMessage t)

def sendErrorMessage (s : AgentState) (error : String) : AgentState :=
  sendMessage s ⟨"system", none, error⟩

def sendExecutionMessage (s : AgentState) (task execution : String) : AgentState :=
  sendMessage s (executionMessage task execution)

/-- Modelled from the spec: the fixed free-tier loop-cap constant
`DEFAULT_MAX_LOOPS_FREE` is imported from `utils/constants`, which is not in
the available sources; the spec fixes only that it is a constant, lower than
the custom-key default.  We pick the conventional value 4. -/
def DEFAULT_MAX_LOOPS_FREE : Nat := 4

/-- Modelled from the spec: the fixed paid-tier loop-cap constant
`DEFAULT_MAX_LOOPS_PAID` (a "fixed higher paid tier constant"),
value not in the available sources.  We pick 16. -/
def DEFAULT_MAX_LOOPS_PAID : Nat := 16

/-- Modelled from the spec: the fixed custom-key default loop-cap constant
`DEFAULT_MAX_LOOPS_CUSTOM_API_KEY`, "higher than the free tier"; value not in
the available sources.  We pick 50. -/
def DEFAULT_MAX_LOOPS_CUSTOM_API_KEY : Nat := 50

/-- Truthiness of `session?.user.subscriptionId`. -/
def sessionPaid (sess : Option Session) : Bool :=
  match sess with
  | none => false
  | some s => strTruthy s.subscriptionId

/-- Loop-cap resolution from a configuration and a session.
`customMaxLoops || DEFAULT_MAX_LOOPS_CUSTOM_API_KEY` uses JavaScript
truthiness, so a zero override falls back to the default. -/
def maxLoopsOf (ms : ModelSettings) (sess : Option Session) : Nat :=
  let defaultLoops :=
    if sessionPaid sess then DEFAULT_MAX_LOOPS_PAID else DEFAULT_MAX_LOOPS_FREE
  if strTruthy ms.customApiKey then
    if natTruthy ms.customMaxLoops then
      ms.customMaxLoops.getD DEFAULT_MAX_LOOPS_CUSTOM_API_KEY
    else DEFAULT_MAX_LOOPS_CUSTOM_API_KEY
  else defaultLoops

/-- The `maxLoops` method: the loop cap of this run, read from the controller's own
configuration and session fields. -/
def maxLoops (s : AgentState) : Nat :=
  maxLoopsOf s.modelSettings s.session

/-- The `shouldRunClientSide` test: custom credential present (truthy). -/
def shouldRunClientSide (s : AgentState) : Bool :=
  strTruthy s.modelSettings.customApiKey

/-- The `post` call: the remote request.  On success the response is returned; on failure
the shutdown hook is invoked, the rate-limit notice is emitted when the
failure is an axios error with HTTP status 429, and the failure is re-raised
(returned in the `Except.error` component). -/
def post (exec : String → ExecOutcome) (s : AgentState) (task : String) :
    AgentState × Except JsError String :=
  match exec task with
  | .success r => (s, .ok r)
  | .failure a st =>
    let s1 := shutdown s
    let s2 := if a = true ∧ st = some 429
      then sendErrorMessage s1 "Rate limit exceeded. Please slow down. 😅"
      else s1
    (s2, .error ⟨a, st⟩)

/-- The `executeTask` dispatch: local mode calls the capability directly (failures
propagate untouched); remote mode goes through `post`. -/
def executeTask (exec : String → ExecOutcome) (s : AgentState) (task : String) :
    AgentState × Except JsError String :=
  if shouldRunClientSide s then
    match exec task with
    | .success r => (s, .ok r)
    | .failure a st => (s, .error ⟨a, st⟩)
  else
    post exec s task

theorem sendMessage_tasks (s : AgentState) (m : Message) :
    (sendMessage s m).tasks = s.tasks := by
  unfold sendMessage; split <;> rfl

theorem sendMessage_isRunning (s : AgentState) (m : Message) :
    (sendMessage s m).isRunning = s.isRunning := by
  unfold sendMessage; split <;> rfl

theorem executeTask_ok_state {exec : String → ExecOutcome} {s s' : AgentState}
    {task r : String} (h : executeTask exec s task = (s', Except.ok r)) :
    s' = s := by
  unfold executeTask post at h
  split at h
  · cases hx : exec task <;> rw [hx] at h <;> simp_all
  · cases hx : exec task <;> rw [hx] at h <;> simp_all

/-- The `loop` method: one tick checks, in order, the running flag, queue emptiness and
the loop cap; otherwise it executes the front task and recurses.  The
`Option JsError` result is the exception (if any) that escapes the loop. -/
def loop (exec : String → ExecOutcome) (s : AgentState) :
    AgentState × Option JsError :=
  if !s.isRunning then (s, none)
  else if s.tasks.length = 0 then (shutdown (sendCompletedMessage s), none)
  else
    let s1 : AgentState := { s with numLoops := s.numLoops + 1 }
    if s1.numLoops > maxLoops s1 then (shutdown (sendLoopMessage s1), none)
    else
      let currentTask := s1.tasks.headD ""
      let s2 : AgentState := { s1 with completedTasks := s1.completedTasks ++ [currentTask] }
      let s3 : AgentState := { s2 with tasks := s2.tasks.tail }
      let s4 := sendThinkingMessage s3
      match h : executeTask exec s4 currentTask with
      | (s5, .error e) => (s5, some e)
      | (s5, .ok result) =>
        let s6 := sendExecutionMessage s5 currentTask result
        let s7 : AgentState := { s6 with runningTasks := s6.runningTasks ++ [currentTask] }
        loop exec s7
termination_by s.tasks.length
decreasing_by
  have h5 : s5 = s4 := executeTask_ok_state h
  simp [s7, s6, h5, s4, sendExecutionMessage, sendThinkingMessage, sendMessage_tasks,
    s3, s2, s1]
  omega

/-- The decomposition step: the source assigns a fixed literal list of eight
task strings, independent of the goal; nothing in the `try` block can fail
(the message sink is assumed total), so the result is always `ok`. -/
def initialTasks : List String :=
  ["Introduction", "Concept", "Problem it aims to solve", "Target audience",
   "Unique selling point", "Competitors", "Market fit",
   "Specific details to consider"]

/-- The `getMessageFromError` classifier: turn a failure into a human-readable text. -/
def getMessageFromError (e : JsError) : String :=
  if e.isAxios then
    if e.status = some 429 then
      "ERROR using your OpenAI API key. You've exceeded your current quota, please check your plan and billing details."
    else if e.status = some 404 then
      "ERROR your API key does not have GPT-4 access. You must first join OpenAI's wait-list. (This is different from ChatGPT Plus)"
    else
      "ERROR accessing OpenAI APIs. Please check your API key or try again later"
  else
    "ERROR retrieving initial tasks array. Retry, make your goal more clear, or revise your goal such that it is within our model's policies to run. Shutting Down."

/-- The decomposition step of `run` as a fallible computation: the body of
the `try` block only assigns a literal and emits messages, so it always
succeeds with the fixed list. -/
def decomposeGoal (goal : String) : Except JsError (List String) :=
  Except.ok initialTasks

/-- The `run` entry point: emit the goal and a thinking message, decompose (emitting one
"task" message per task; on failure emit a classified error and shut down
without entering the loop), then enter the loop. -/
def run (exec : String → ExecOutcome) (s : AgentState) :
    AgentState × Option JsError :=
  let s1 := sendGoalMessage s
  let s2 := sendThinkingMessage s1
  match decomposeGoal s2.goal with
  | .error e =>
    let s3 := sendErrorMessage s2 (getMessageFromError e)
    (shutdown s3, none)
  | .ok ts =>
    let s3 : AgentState := { s2 with tasks := ts }
    let s4 := ts.foldl (fun acc t => sendTaskMessage acc t) s3
    loop exec s4

/-- The `stopAgent` cancellation: emit the manual-shutdown message, clear the running flag,
invoke the shutdown hook. -/
def stopAgent (s : AgentState) : AgentState :=
  let s1 := sendManualShutdownMessage s
  let s2 : AgentState := { s1 with isRunning := false }
  shutdown s2

/-- An execution capability that always succeeds, returning `f t` for task
`t` ("no execution call fails"). -/
def succExec (f : String → String) : String → ExecOutcome :=
  fun t => .success (f t)

/-- Recognizer for "action" messages. -/
def isAction (m : Message) : Bool := m.type == "action"

/-- Recognizer for "system" messages. -/
def isSystem (m : Message) : Bool := m.type == "system"

/-- The cap-exceeded "system" message for a given configuration. -/
def loopMessage (ms : ModelSettings) : Message :=
  ⟨"system", none, loopMessageValue ms⟩

theorem sendMessage_run {s : AgentState} (m : Message) (h : s.isRunning = true) :
    sendMessage s m = { s with messages := s.messages ++ [m] } := by
  unfold sendMessage; rw [h]; simp

theorem sendMessage_stopped {s : AgentState} (m : Message) (h : s.isRunning = false) :
    sendMessage s m = s := by
  unfold sendMessage; rw [h]; simp

theorem executeTask_success {exec : String → ExecOutcome} {task r : String}
    (s : AgentState) (hx : exec task = .success r) :
    executeTask exec s task = (s, Except.ok r) := by
  unfold executeTask post
  rw [hx]
  split <;> rfl

theorem loop_stopped {s : AgentState} (exec : String → ExecOutcome)
    (h : s.isRunning = false) : loop exec s = (s, none) := by
  rw [loop]; rw [h]; simp

theorem loop_done {s : AgentState} (exec : String → ExecOutcome)
    (hrun : s.isRunning = true) (h : s.tasks = []) :
    loop exec s =
      ({ s with messages := s.messages ++ [completedMessage],
                shutdownCount := s.shutdownCount + 1 }, none) := by
  rw [loop]
  simp [hrun, h, shutdown, sendCompletedMessage, sendMessage, goalMessage]

theorem loop_cap_hit {s : AgentState} (exec : String → ExecOutcome)
    (hrun : s.isRunning = true) (htasks : s.tasks ≠ [])
    (hcap : maxLoops s < s.numLoops + 1) :
    loop exec s =
      ({ s with numLoops := s.numLoops + 1,
                messages := s.messages ++ [loopMessage s.modelSettings],
                shutdownCount := s.shutdownCount + 1 }, none) := by
  rw [loop]
  have hlen : ¬ s.tasks.length = 0 := by
    simpa [List.length_eq_zero] using htasks
  have hcap' : maxLoopsOf s.modelSettings s.session < s.numLoops + 1 := hcap
  simp [hrun, hlen, maxLoops, hcap', shutdown, sendLoopMessage, sendMessage, loopMessage]

theorem loop_tick_success {s : AgentState} {exec : String → ExecOutcome}
    {t r : String} {rest : List String}
    (hrun : s.isRunning = true) (htasks : s.tasks = t :: rest)
    (hcap : s.numLoops + 1 ≤ maxLoops s) (hx : exec t = .success r) :
    loop exec s = loop exec
      { s with tasks := rest,
               completedTasks := s.completedTasks ++ [t],
               runningTasks := s.runningTasks ++ [t],
               numLoops := s.numLoops + 1,
               messages := s.messages ++ [thinkingMessage, executionMessage t r] } := by
  conv_lhs => rw [loop]
  have hcap' : ¬ maxLoopsOf s.modelSettings s.session < s.numLoops + 1 :=
    not_lt.mpr hcap
  simp only [hrun, htasks, Bool.not_true, Bool.false_eq_true, if_false,
    List.length_cons, Nat.succ_ne_zero, if_neg (Nat.succ_ne_zero rest.length),
    maxLoops, gt_iff_lt, if_neg hcap', List.headD_cons, List.tail_cons]
  split
  next s5 e heq =>
    rw [htasks] at heq
    simp only [List.headD_cons] at heq
    rw [executeTask_success _ hx] at heq
    simp at heq
  next s5 result heq =>
    rw [htasks] at heq
    simp only [List.headD_cons, List.tail_cons] at heq
    rw [executeTask_success _ hx] at heq
    injection heq with h1 h2
    injection h2 with h3
    subst h1
    subst h3
    congr 1
    simp [sendThinkingMessage, sendExecutionMessage, sendMessage, hrun, htasks]

theorem executeTask_fail_remote {exec : String → ExecOutcome} {task : String}
    {a : Bool} {st : Option Nat} (s : AgentState)
    (hmode : shouldRunClientSide s = false) (hx : exec task = .failure a st) :
    executeTask exec s task =
      ((if a = true ∧ st = some 429
        then sendErrorMessage (shutdown s) "Rate limit exceeded. Please slow down. 😅"
        else shutdown s), .error ⟨a, st⟩) := by
  unfold executeTask post
  simp [hmode, hx]

theorem loop_tick_fail_remote {s : AgentState} {exec : String → ExecOutcome}
    {t : String} {rest : List String} {a : Bool} {st : Option Nat}
    (hmode : shouldRunClientSide s = false)
    (hrun : s.isRunning = true) (htasks : s.tasks = t :: rest)
    (hcap : s.numLoops + 1 ≤ maxLoops s) (hx : exec t = .failure a st) :
    loop exec s =
      ({ s with tasks := rest,
                completedTasks := s.completedTasks ++ [t],
                numLoops := s.numLoops + 1,
                messages := s.messages ++ [thinkingMessage] ++
                  (if a = true ∧ st = some 429 then [rateLimitMessage] else []),
                shutdownCount := s.shutdownCount + 1 }, some ⟨a, st⟩) := by
  conv_lhs => rw [loop]
  have hcap' : ¬ maxLoopsOf s.modelSettings s.session < s.numLoops + 1 :=
    not_lt.mpr hcap
  simp only [hrun, htasks, Bool.not_true, Bool.false_eq_true, if_false,
    List.length_cons, Nat.succ_ne_zero, if_neg (Nat.succ_ne_zero rest.length),
    maxLoops, gt_iff_lt, if_neg hcap', List.headD_cons, List.tail_cons]
  have hmode' : shouldRunClientSide
      (sendThinkingMessage
        { s with tasks := rest,
                 completedTasks := s.completedTasks ++ [t],
                 numLoops := s.numLoops + 1 }) = false := by
    simpa [shouldRunClientSide, sendThinkingMessage, sendMessage, hrun] using hmode
  split
  next s5 e heq =>
    rw [htasks] at heq
    simp only [List.headD_cons, List.tail_cons] at heq
    rw [executeTask_fail_remote _ hmode' hx] at heq
    injection heq with h1 h2
    injection h2 with h3
    subst h1
    subst h3
    by_cases hc : a = true ∧ st = some 429 <;>
      simp [hc, sendThinkingMessage, sendErrorMessage, sendMessage, shutdown, hrun,
        rateLimitMessage]
  next s5 result heq =>
    rw [htasks] at heq
    simp only [List.headD_cons, List.tail_cons] at heq
    rw [executeTask_fail_remote _ hmode' hx] at heq
    simp at heq

theorem loop_tick_fail_local {s : AgentState} {exec : String → ExecOutcome}
    {t : String} {rest : List String} {a : Bool} {st : Option Nat}
    (hmode : shouldRunClientSide s = true)
    (hrun : s.isRunning = true) (htasks : s.tasks = t :: rest)
    (hcap : s.numLoops + 1 ≤ maxLoops s) (hx : exec t = .failure a st) :
    loop exec s =
      ({ s with tasks := rest,
                completedTasks := s.completedTasks ++ [t],
                numLoops := s.numLoops + 1,
                messages := s.messages ++ [thinkingMessage] }, some ⟨a, st⟩) := by
  conv_lhs => rw [loop]
  have hcap' : ¬ maxLoopsOf s.modelSettings s.session < s.numLoops + 1 :=
    not_lt.mpr hcap
  simp only [hrun, htasks, Bool.not_true, Bool.false_eq_true, if_false,
    List.length_cons, Nat.succ_ne_zero, if_neg (Nat.succ_ne_zero rest.length),
    maxLoops, gt_iff_lt, if_neg hcap', List.headD_cons, List.tail_cons]
  have hmode' : shouldRunClientSide
      (sendThinkingMessage
        { s with tasks := rest,
                 completedTasks := s.completedTasks ++ [t],
                 numLoops := s.numLoops + 1 }) = true := by
    simpa [shouldRunClientSide, sendThinkingMessage, sendMessage, hrun] using hmode
  split
  next s5 e heq =>
    rw [htasks] at heq
    simp only [List.headD_cons, List.tail_cons] at heq
    unfold executeTask at heq
    rw [hmode', hx] at heq
    injection heq with h1 h2
    injection h2 with h3
    subst h1
    subst h3
    simp [sendThinkingMessage, sendMessage, hrun]
  next s5 result heq =>
    rw [htasks] at heq
    simp only [List.headD_cons, List.tail_cons] at heq
    unfold executeTask at heq
    rw [hmode', hx] at heq
    simp at heq

/-- One "thinking"/"action" message pair per executed task. -/
def tickMessages (f : String → String) (l : List String) : List Message :=
  l.flatMap fun t => [thinkingMessage, executionMessage t (f t)]

theorem loop_all_success (f : String → String) :
    ∀ (l : List String) (s : AgentState), s.tasks = l → s.isRunning = true →
      s.numLoops + l.length ≤ maxLoops s →
      loop (succExec f) s =
        ({ s with tasks := [],
                  completedTasks := s.completedTasks ++ l,
                  runningTasks := s.runningTasks ++ l,
                  numLoops := s.numLoops + l.length,
                  messages := s.messages ++ tickMessages f l ++ [completedMessage],
                  shutdownCount := s.shutdownCount + 1 }, none) := by
  intro l
  induction l with
  | nil =>
    intro s h1 h2 _h3
    rw [loop_done _ h2 h1]
    simp [tickMessages, h1]
  | cons t rest ih =>
    intro s h1 h2 h3
    rw [@loop_tick_success s (succExec f) t (f t) rest h2 h1 (by simp at h3; omega) rfl]
    rw [ih _ rfl (by simpa [sendMessage] using h2)
      (by simpa [maxLoops] using (by simp at h3 ⊢; omega :
        s.numLoops + 1 + rest.length ≤ maxLoops s))]
    simp [tickMessages, List.append_assoc]
    omega

theorem loop_cap_run (f : String → String) :
    ∀ (k : Nat) (s : AgentState), s.isRunning = true →
      s.numLoops + k = maxLoops s → k < s.tasks.length →
      loop (succExec f) s =
        ({ s with tasks := s.tasks.drop k,
                  completedTasks := s.completedTasks ++ s.tasks.take k,
                  runningTasks := s.runningTasks ++ s.tasks.take k,
                  numLoops := maxLoops s + 1,
                  messages := s.messages ++ tickMessages f (s.tasks.take k) ++
                    [loopMessage s.modelSettings],
                  shutdownCount := s.shutdownCount + 1 }, none) := by
  intro k
  induction k with
  | zero =>
    intro s h1 h2 h3
    rw [loop_cap_hit _ h1 (by intro hnil; rw [hnil] at h3; simp at h3) (by omega)]
    simp [tickMessages]
    omega
  | succ k ih =>
    intro s h1 h2 h3
    obtain ⟨t, rest, htasks⟩ : ∃ t rest, s.tasks = t :: rest := by
      cases hx : s.tasks with
      | nil => rw [hx] at h3; simp at h3
      | cons t rest => exact ⟨t, rest, rfl⟩
    rw [@loop_tick_success s (succExec f) t (f t) rest h1 htasks (by omega) rfl]
    rw [ih _ (by simpa [sendMessage] using h1)
      (by simpa [maxLoops] using (by simpa [maxLoops] using (by omega :
        s.numLoops + 1 + k = maxLoops s)))
      (by rw [htasks] at h3; simpa using Nat.lt_of_succ_lt_succ h3)]
    have hml : maxLoops
        { s with tasks := rest,
                 completedTasks := s.completedTasks ++ [t],
                 runningTasks := s.runningTasks ++ [t],
                 numLoops := s.numLoops + 1,
                 messages := s.messages ++ [thinkingMessage, executionMessage t (f t)] }
        = maxLoops s := rfl
    rw [hml]
    simp [tickMessages, htasks, List.append_assoc]

theorem tickMessages_filter_action (f : String → String) (l : List String) :
    (tickMessages f l).filter isAction = l.map fun t => executionMessage t (f t) := by
  induction l with
  | nil => simp [tickMessages]
  | cons t rest ih =>
    simp only [tickMessages, List.flatMap_cons] at ih ⊢
    simp [List.filter_append, isAction, thinkingMessage, executionMessage] at ih ⊢
    exact ih

/-- A remote-mode configuration with no credential. -/
def msRemote : ModelSettings := ⟨none, "gpt-3.5-turbo", none⟩

/-- A configuration with a custom credential and no loop override. -/
def msCustom : ModelSettings := ⟨some "sk-key", "gpt-3.5-turbo", none⟩

/-- C3 as written fails at a zero override: `customMaxLoops || DEFAULT` uses
JavaScript truthiness, so the caller-supplied override `K = 0` is discarded
and the custom-key default is returned instead of `K`. -/
theorem claim_C3_counterexample :
    maxLoops (mkAgent "g" ⟨some "sk-key", "gpt-3.5-turbo", some 0⟩ none)
      = DEFAULT_MAX_LOOPS_CUSTOM_API_KEY ∧
    maxLoops (mkAgent "g" ⟨some "sk-key", "gpt-3.5-turbo", some 0⟩ none) ≠ 0 := by
  constructor <;> decide

/-- C3 (amended): loop-cap resolution is a pure function of configuration and
session: no credential and no paid identity gives the free-tier constant; no
credential and a paid identity gives the paid-tier constant; a credential with
no override gives the custom-key default; a credential with a truthy
(non-zero) override `K` gives `K`, while a zero override falls back to the
custom-key default. -/
theorem claim_C3 (s : AgentState) :
    (strTruthy s.modelSettings.customApiKey = false → sessionPaid s.session = false →
      maxLoops s = DEFAULT_MAX_LOOPS_FREE) ∧
    (strTruthy s.modelSettings.customApiKey = false → sessionPaid s.session = true →
      maxLoops s = DEFAULT_MAX_LOOPS_PAID) ∧
    (strTruthy s.modelSettings.customApiKey = true → s.modelSettings.customMaxLoops = none →
      maxLoops s = DEFAULT_MAX_LOOPS_CUSTOM_API_KEY) ∧
    (∀ k : Nat, strTruthy s.modelSettings.customApiKey = true →
      s.modelSettings.customMaxLoops = some k → k ≠ 0 →
      maxLoops s = k) ∧
    (strTruthy s.modelSettings.customApiKey = true →
      s.modelSettings.customMaxLoops = some 0 →
      maxLoops s = DEFAULT_MAX_LOOPS_CUSTOM_API_KEY) := by
  refine ⟨fun h1 h2 => ?_, fun h1 h2 => ?_, fun h1 h2 => ?_, fun k h1 h2 h3 => ?_,
    fun h1 h2 => ?_⟩ <;>
    simp [maxLoops, maxLoopsOf, h1, h2, natTruthy, *]

/-- C3 witness: a credential with the truthy override 7 resolves to 7. -/
theorem claim_C3_witness :
    strTruthy (some "sk-key") = true ∧ (7 : Nat) ≠ 0 ∧
    maxLoops (mkAgent "g" ⟨some "sk-key", "gpt-3.5-turbo", some 7⟩ none) = 7 :=
  ⟨by decide, by decide,
    (claim_C3 (mkAgent "g" ⟨some "sk-key", "gpt-3.5-turbo", some 7⟩ none)).2.2.2.1 7
      (by decide) rfl (by decide)⟩

/-- C4: once the running flag is false, the emission guard drops every
message (the sink is never called again, including for the "action" message
of an execution that resolves late), and a loop tick returns immediately
without starting any task execution. -/
theorem claim_C4 (s : AgentState) (h : s.isRunning = false) :
    (∀ m, sendMessage s m = s) ∧
    (∀ t r, sendExecutionMessage s t r = s) ∧
    (∀ t, sendTaskMessage s t = s) ∧
    (∀ e, sendErrorMessage s e = s) ∧
    sendGoalMessage s = s ∧
    sendThinkingMessage s = s ∧
    sendCompletedMessage s = s ∧
    sendLoopMessage s = s ∧
    sendManualShutdownMessage s = s ∧
    (∀ exec, loop exec s = (s, none)) := by
  refine ⟨fun m => sendMessage_stopped m h,
    fun t r => sendMessage_stopped _ h,
    fun t => sendMessage_stopped _ h,
    fun e => sendMessage_stopped _ h,
    sendMessage_stopped _ h,
    sendMessage_stopped _ h,
    sendMessage_stopped _ h,
    sendMessage_stopped _ h,
    sendMessage_stopped _ h,
    fun exec => loop_stopped exec h⟩

/-- A stopped agent state used to witness C4. -/
def stoppedAgent : AgentState :=
  { mkAgent "g" msRemote none with isRunning := false, tasks := ["t1", "t2"] }

/-- C4 witness: on a concrete stopped state, an in-flight "action" emission is
suppressed and a loop tick is a no-op. -/
theorem claim_C4_witness :
    stoppedAgent.isRunning = false ∧
    sendExecutionMessage stoppedAgent "t1" "res" = stoppedAgent ∧
    loop (succExec fun _ => "res") stoppedAgent = (stoppedAgent, none) :=
  ⟨rfl, (claim_C4 stoppedAgent rfl).2.1 "t1" "res",
    (claim_C4 stoppedAgent rfl).2.2.2.2.2.2.2.2.2 (succExec fun _ => "res")⟩

/-- C5: `stopAgent` synchronously delivers the manual-shutdown "system"
message (the flag is still true when the guard runs), then clears the running
flag and invokes the shutdown hook; called before any task has executed, the
rest of the run delivers zero "action" messages and exactly one
manual-shutdown message. -/
theorem claim_C5 (s : AgentState) (hrun : s.isRunning = true)
    (hact : s.messages.filter isAction = [])
    (hman : s.messages.filter (fun m => m == manualShutdownMessage) = []) :
    stopAgent s = { s with messages := s.messages ++ [manualShutdownMessage],
                           isRunning := false,
                           shutdownCount := s.shutdownCount + 1 } ∧
    (∀ exec, (loop exec (stopAgent s)).1.messages.filter isAction = [] ∧
      (loop exec (stopAgent s)).1.messages.filter
        (fun m => m == manualShutdownMessage) = [manualShutdownMessage]) := by
  have hstop : stopAgent s =
      { s with messages := s.messages ++ [manualShutdownMessage],
               isRunning := false,
               shutdownCount := s.shutdownCount + 1 } := by
    simp [stopAgent, sendManualShutdownMessage, sendMessage, hrun, shutdown]
  refine ⟨hstop, fun exec => ?_⟩
  rw [hstop, loop_stopped _ rfl]
  simp only [List.filter_append, hact, hman, List.nil_append]
  constructor <;> decide

/-- C5 witness: `stopAgent` on a freshly constructed agent. -/
theorem claim_C5_witness :
    (mkAgent "g" msRemote none).isRunning = true ∧
    stopAgent (mkAgent "g" msRemote none) =
      { mkAgent "g" msRemote none with
          messages := [manualShutdownMessage],
          isRunning := false,
          shutdownCount := 1 } ∧
    (loop (succExec fun _ => "res")
        (stopAgent (mkAgent "g" msRemote none))).1.messages.filter isAction = [] ∧
    (loop (succExec fun _ => "res")
        (stopAgent (mkAgent "g" msRemote none))).1.messages.filter
      (fun m => m == manualShutdownMessage) = [manualShutdownMessage] := by
  have h := claim_C5 (mkAgent "g" msRemote none) rfl rfl rfl
  exact ⟨rfl, by simpa [mkAgent] using h.1,
    (h.2 (succExec fun _ => "res")).1, (h.2 (succExec fun _ => "res")).2⟩

/-- C10: a second `stopAgent` call invokes the shutdown hook a second time
but the emission guard observes the flag already false, so no second
manual-shutdown message reaches the sink. -/
theorem claim_C10 (s : AgentState) (hrun : s.isRunning = true) :
    (stopAgent (stopAgent s)).messages = (stopAgent s).messages ∧
    (stopAgent (stopAgent s)).shutdownCount = (stopAgent s).shutdownCount + 1 ∧
    (stopAgent s).messages = s.messages ++ [manualShutdownMessage] := by
  have h1 : (stopAgent s).isRunning = false := rfl
  have hsm : sendManualShutdownMessage (stopAgent s) = stopAgent s :=
    sendMessage_stopped _ h1
  refine ⟨?_, ?_, ?_⟩
  · show (shutdown { sendManualShutdownMessage (stopAgent s) with
      isRunning := false }).messages = (stopAgent s).messages
    rw [hsm]
    rfl
  · show (shutdown { sendManualShutdownMessage (stopAgent s) with
      isRunning := false }).shutdownCount = (stopAgent s).shutdownCount + 1
    rw [hsm]
    rfl
  · simp [stopAgent, shutdown, sendManualShutdownMessage, sendMessage, hrun]

/-- C10 witness: double `stopAgent` on a fresh agent delivers one message and
two shutdown invocations. -/
theorem claim_C10_witness :
    (stopAgent (stopAgent (mkAgent "g" msRemote none))).messages =
      (stopAgent (mkAgent "g" msRemote none)).messages ∧
    (stopAgent (stopAgent (mkAgent "g" msRemote none))).shutdownCount =
      (stopAgent (mkAgent "g" msRemote none)).shutdownCount + 1 ∧
    (stopAgent (mkAgent "g" msRemote none)).messages =
      (mkAgent "g" msRemote none).messages ++ [manualShutdownMessage] :=
  claim_C10 (mkAgent "g" msRemote none) rfl

/-- C1: entering the loop phase with a non-empty decomposed task list of
length `N`, a resolved cap of at least `N` and an execution capability that
never fails, the run delivers exactly `N` "action" messages, one per task and
in the order of the task list, then the natural-completion "system" message,
invokes shutdown once, and no exception escapes. -/
theorem claim_C1 (f : String → String) (s : AgentState) (l : List String)
    (htasks : s.tasks = l) (hne : l ≠ [])
    (hrun : s.isRunning = true) (hloops : s.numLoops = 0)
    (hcap : l.length ≤ maxLoops s)
    (hnoact : s.messages.filter isAction = []) :
    (loop (succExec f) s).1.messages =
      s.messages ++ tickMessages f l ++ [completedMessage] ∧
    (loop (succExec f) s).1.messages.filter isAction =
      (l.map fun t => executionMessage t (f t)) ∧
    ((loop (succExec f) s).1.messages.filter isAction).length = l.length ∧
    (loop (succExec f) s).1.shutdownCount = s.shutdownCount + 1 ∧
    (loop (succExec f) s).2 = none := by
  rw [loop_all_success f l s htasks hrun (by omega)]
  refine ⟨rfl, ?_, ?_, rfl, rfl⟩ <;>
    simp [List.filter_append, hnoact, tickMessages_filter_action, completedMessage, isAction]

/-- A two-task agent with a custom credential (cap 50), used as C1 witness. -/
def sTwoTasks : AgentState :=
  { mkAgent "g" msCustom none with tasks := ["alpha", "beta"] }

/-- C1 witness: a concrete two-task run with cap 50 delivers the two "action"
messages in order and the completion message. -/
theorem claim_C1_witness :
    sTwoTasks.tasks = ["alpha", "beta"] ∧
    (["alpha", "beta"] : List String).length ≤ maxLoops sTwoTasks ∧
    (loop (succExec fun t => t ++ "!") sTwoTasks).1.messages =
      sTwoTasks.messages ++ tickMessages (fun t => t ++ "!") ["alpha", "beta"] ++
        [completedMessage] ∧
    (loop (succExec fun t => t ++ "!") sTwoTasks).1.messages.filter isAction =
      (["alpha", "beta"].map fun t => executionMessage t (t ++ "!")) ∧
    (loop (succExec fun t => t ++ "!") sTwoTasks).1.shutdownCount = 1 ∧
    (loop (succExec fun t => t ++ "!") sTwoTasks).2 = none := by
  have h := claim_C1 (fun t => t ++ "!") sTwoTasks ["alpha", "beta"] rfl
    (by decide) rfl rfl (by decide) rfl
  exact ⟨rfl, by decide, h.1, h.2.1, h.2.2.2.1, h.2.2.2.2⟩

/-- C2: entering the loop phase with `N` tasks and a resolved cap `C < N`
(and a never-failing execution capability), the run delivers exactly `C`
"action" messages, then the cap-exceeded "system" message, invokes shutdown,
and `completedTasks` ends with exactly `C` entries — the counter is
incremented before the comparison, so the cap bounds executed tasks. -/
theorem claim_C2 (f : String → String) (s : AgentState) (l : List String)
    (htasks : s.tasks = l)
    (hrun : s.isRunning = true) (hloops : s.numLoops = 0)
    (hcompleted : s.completedTasks = [])
    (hcap : maxLoops s < l.length)
    (hnoact : s.messages.filter isAction = []) :
    (loop (succExec f) s).1.messages =
      s.messages ++ tickMessages f (l.take (maxLoops s)) ++
        [loopMessage s.modelSettings] ∧
    ((loop (succExec f) s).1.messages.filter isAction).length = maxLoops s ∧
    (loop (succExec f) s).1.completedTasks.length = maxLoops s ∧
    (loop (succExec f) s).1.shutdownCount = s.shutdownCount + 1 ∧
    (loop (succExec f) s).2 = none := by
  subst htasks
  rw [loop_cap_run f (maxLoops s) s hrun (by omega) (by omega)]
  refine ⟨rfl, ?_, ?_, rfl, rfl⟩
  · simp [List.filter_append, hnoact, tickMessages_filter_action, loopMessage, isAction]
    omega
  · simp [hcompleted]
    omega

/-- A six-task remote free-tier agent (cap 4), used as C2 witness. -/
def sSixTasks : AgentState :=
  { mkAgent "g" msRemote none with
      tasks := ["t1", "t2", "t3", "t4", "t5", "t6"] }

/-- C2 witness: six tasks against the free-tier cap 4 produce four "action"
messages, four completed tasks, and the cap-exceeded notice. -/
theorem claim_C2_witness :
    maxLoops sSixTasks < (["t1", "t2", "t3", "t4", "t5", "t6"] : List String).length ∧
    (loop (succExec fun t => t ++ "!") sSixTasks).1.messages =
      sSixTasks.messages ++
        tickMessages (fun t => t ++ "!")
          (["t1", "t2", "t3", "t4", "t5", "t6"].take (maxLoops sSixTasks)) ++
        [loopMessage sSixTasks.modelSettings] ∧
    ((loop (succExec fun t => t ++ "!") sSixTasks).1.messages.filter isAction).length =
      maxLoops sSixTasks ∧
    (loop (succExec fun t => t ++ "!") sSixTasks).1.completedTasks.length =
      maxLoops sSixTasks ∧
    (loop (succExec fun t => t ++ "!") sSixTasks).1.shutdownCount = 1 ∧
    (loop (succExec fun t => t ++ "!") sSixTasks).2 = none := by
  have h := claim_C2 (fun t => t ++ "!") sSixTasks
    ["t1", "t2", "t3", "t4", "t5", "t6"] rfl rfl rfl rfl (by decide) rfl
  exact ⟨by decide, h.1, h.2.1, h.2.2.1, h.2.2.2.1, h.2.2.2.2⟩

theorem foldl_sendTaskMessage (l : List String) :
    ∀ s : AgentState, s.isRunning = true →
      l.foldl (fun acc t => sendTaskMessage acc t) s =
        { s with messages := s.messages ++ l.map taskMessage } := by
  induction l with
  | nil => intro s _h; simp
  | cons t rest ih =>
    intro s h
    simp only [List.foldl_cons]
    rw [show sendTaskMessage s t =
      { s with messages := s.messages ++ [taskMessage t] } by
        simp [sendTaskMessage, sendMessage, h]]
    rw [ih _ (by simpa using h)]
    simp

theorem run_unfold (exec : String → ExecOutcome) (s : AgentState)
    (hrun : s.isRunning = true) :
    run exec s = loop exec
      { s with tasks := initialTasks,
               messages := s.messages ++ [goalMessage s.goal, thinkingMessage] ++
                 initialTasks.map taskMessage } := by
  simp only [run, decomposeGoal]
  rw [show sendGoalMessage s =
    { s with messages := s.messages ++ [goalMessage s.goal] } by
      simp [sendGoalMessage, sendMessage, hrun]]
  rw [show sendThinkingMessage { s with messages := s.messages ++ [goalMessage s.goal] } =
    { s with messages := s.messages ++ [goalMessage s.goal, thinkingMessage] } by
      simp [sendThinkingMessage, sendMessage, hrun]]
  rw [foldl_sendTaskMessage _ _ (by simpa using hrun)]

/-- An execution capability that always fails with HTTP 429 (rate limited). -/
def exec429 : String → ExecOutcome := fun _ => .failure true (some 429)

/-- C6: a remote-mode run (no custom credential) whose execution call always
fails with HTTP 429 re-raises the failure to the caller of the dispatch,
delivers zero "action" messages and exactly one "system" message — the fixed
rate-limit notice — and invokes shutdown. -/
theorem claim_C6 (g : String) (ms : ModelSettings) (sess : Option Session)
    (hmode : strTruthy ms.customApiKey = false) :
    (run exec429 (mkAgent g ms sess)).2 = some ⟨true, some 429⟩ ∧
    (run exec429 (mkAgent g ms sess)).1.messages.filter isAction = [] ∧
    (run exec429 (mkAgent g ms sess)).1.messages.filter isSystem = [rateLimitMessage] ∧
    (run exec429 (mkAgent g ms sess)).1.shutdownCount = 1 := by
  rw [run_unfold _ _ rfl]
  rw [@loop_tick_fail_remote
    { mkAgent g ms sess with
        tasks := initialTasks,
        messages := (mkAgent g ms sess).messages ++
          [goalMessage (mkAgent g ms sess).goal, thinkingMessage] ++
          initialTasks.map taskMessage }
    exec429 "Introduction"
    ["Concept", "Problem it aims to solve", "Target audience",
     "Unique selling point", "Competitors", "Market fit",
     "Specific details to consider"]
    true (some 429)
    (by simpa [shouldRunClientSide, mkAgent] using hmode) rfl rfl
    (by simp [maxLoops, maxLoopsOf, mkAgent, hmode]; split <;> decide) rfl]
  refine ⟨rfl, ?_, ?_, rfl⟩ <;>
    simp [mkAgent, initialTasks, isAction, isSystem, goalMessage, thinkingMessage,
      taskMessage, rateLimitMessage, List.filter_append]

/-- C6 witness: the remote free-tier configuration with a concrete goal. -/
theorem claim_C6_witness :
    strTruthy msRemote.customApiKey = false ∧
    (run exec429 (mkAgent "my goal" msRemote none)).2 = some ⟨true, some 429⟩ ∧
    (run exec429 (mkAgent "my goal" msRemote none)).1.messages.filter isAction = [] ∧
    (run exec429 (mkAgent "my goal" msRemote none)).1.messages.filter isSystem =
      [rateLimitMessage] ∧
    (run exec429 (mkAgent "my goal" msRemote none)).1.shutdownCount = 1 := by
  have h := claim_C6 "my goal" msRemote none rfl
  exact ⟨rfl, h.1, h.2.1, h.2.2.1, h.2.2.2⟩

/-- C7: a remote-call failure that is not an HTTP 429 invokes shutdown, adds
no "system" message (only the pre-execution "thinking" message was emitted in
that tick), and re-raises the underlying failure out of the loop to the
caller. -/
theorem claim_C7 (s : AgentState) (t : String) (rest : List String)
    (a : Bool) (st : Option Nat)
    (hmode : strTruthy s.modelSettings.customApiKey = false)
    (hrun : s.isRunning = true) (htasks : s.tasks = t :: rest)
    (hcap : s.numLoops + 1 ≤ maxLoops s)
    (hnot : ¬ (a = true ∧ st = some 429)) :
    loop (fun _ => .failure a st) s =
      ({ s with tasks := rest,
                completedTasks := s.completedTasks ++ [t],
                numLoops := s.numLoops + 1,
                messages := s.messages ++ [thinkingMessage],
                shutdownCount := s.shutdownCount + 1 }, some ⟨a, st⟩) ∧
    (loop (fun _ => .failure a st) s).1.messages.filter isSystem =
      s.messages.filter isSystem := by
  have h := @loop_tick_fail_remote s (fun _ => .failure a st) t rest a st
    (by simpa [shouldRunClientSide] using hmode) hrun htasks hcap rfl
  rw [if_neg hnot] at h
  have h' : loop (fun _ => .failure a st) s =
      ({ s with tasks := rest,
                completedTasks := s.completedTasks ++ [t],
                numLoops := s.numLoops + 1,
                messages := s.messages ++ [thinkingMessage],
                shutdownCount := s.shutdownCount + 1 }, some ⟨a, st⟩) := by
    simpa using h
  refine ⟨h', ?_⟩
  rw [h']
  simp [List.filter_append, isSystem, thinkingMessage]

/-- A one-task remote-mode agent used in the C7 witness and the C8
counterexample. -/
def sOneTask : AgentState :=
  { mkAgent "g" msRemote none with tasks := ["t1"] }

/-- C7 witness: a concrete non-axios failure (no HTTP status) on a one-task
remote run shuts down, emits no "system" message and re-raises. -/
theorem claim_C7_witness :
    loop (fun _ => ExecOutcome.failure false none) sOneTask =
      ({ sOneTask with
           tasks := ([] : List String),
           completedTasks := sOneTask.completedTasks ++ ["t1"],
           numLoops := sOneTask.numLoops + 1,
           messages := sOneTask.messages ++ [thinkingMessage],
           shutdownCount := sOneTask.shutdownCount + 1 }, some ⟨false, none⟩) ∧
    (loop (fun _ => ExecOutcome.failure false none) sOneTask).1.messages.filter isSystem =
      sOneTask.messages.filter isSystem :=
  claim_C7 sOneTask "t1" [] false none rfl rfl rfl (by decide) (by decide)

/-- C8 as written fails: the task is *not* moved into the `runningTasks`
(dispatchedTasks) bookkeeping before the capability is invoked.  On a
concrete one-task run whose execution fails, the failed task is already in
`completedTasks` (pushed before invocation) but absent from `runningTasks` —
had the claimed before-invocation push happened, it would still be there. -/
theorem claim_C8_counterexample :
    (loop (fun _ => ExecOutcome.failure false none) sOneTask).1.completedTasks = ["t1"] ∧
    (loop (fun _ => ExecOutcome.failure false none) sOneTask).1.runningTasks = [] ∧
    (loop (fun _ => ExecOutcome.failure false none) sOneTask).2 = some ⟨false, none⟩ := by
  rw [@loop_tick_fail_remote sOneTask (fun _ => ExecOutcome.failure false none)
    "t1" [] false none (by decide) rfl rfl (by decide) rfl]
  refine ⟨?_, rfl, rfl⟩
  simp [sOneTask, mkAgent]

/-- C8 (amended): in a working tick the front task is pushed to
`completedTasks` and dequeued before the capability is invoked and the
"thinking" message precedes execution, but the task is appended to
`runningTasks` only after the execution returns and its "action" message is
emitted; when the execution fails, `runningTasks` is left unchanged. -/
theorem claim_C8 (exec : String → ExecOutcome) (s : AgentState)
    (t : String) (rest : List String)
    (hrun : s.isRunning = true) (htasks : s.tasks = t :: rest)
    (hcap : s.numLoops + 1 ≤ maxLoops s) :
    (∀ r, exec t = .success r →
      loop exec s = loop exec
        { s with tasks := rest,
                 completedTasks := s.completedTasks ++ [t],
                 runningTasks := s.runningTasks ++ [t],
                 numLoops := s.numLoops + 1,
                 messages := s.messages ++ [thinkingMessage, executionMessage t r] }) ∧
    (∀ a st, shouldRunClientSide s = false → exec t = .failure a st →
      (loop exec s).1.completedTasks = s.completedTasks ++ [t] ∧
      (loop exec s).1.runningTasks = s.runningTasks) := by
  refine ⟨fun r hx => loop_tick_success hrun htasks hcap hx, fun a st hm hx => ?_⟩
  rw [@loop_tick_fail_remote s exec t rest a st hm hrun htasks hcap hx]
  exact ⟨rfl, rfl⟩

/-- C8 witness: one successful tick on the concrete one-task agent. -/
theorem claim_C8_witness :
    loop (succExec fun _ => "ok") sOneTask = loop (succExec fun _ => "ok")
      { sOneTask with
          tasks := ([] : List String),
          completedTasks := sOneTask.completedTasks ++ ["t1"],
          runningTasks := sOneTask.runningTasks ++ ["t1"],
          numLoops := sOneTask.numLoops + 1,
          messages := sOneTask.messages ++ [thinkingMessage, executionMessage "t1" "ok"] } :=
  (claim_C8 (succExec fun _ => "ok") sOneTask "t1" [] rfl rfl (by decide)).1 "ok" rfl

/-- C9: the decomposition step always succeeds with the same fixed 8-element
task list, whatever the goal; `run` therefore never takes its
decomposition-failure branch (which would emit an error "system" message and
shut down): for every running state it proceeds into the loop after emitting
the goal message, a thinking message and the 8 task messages. -/
theorem claim_C9 (g : String) (exec : String → ExecOutcome) (s : AgentState)
    (hrun : s.isRunning = true) :
    decomposeGoal g = Except.ok initialTasks ∧
    initialTasks.length = 8 ∧
    run exec s = loop exec
      { s with tasks := initialTasks,
               messages := s.messages ++ [goalMessage s.goal, thinkingMessage] ++
                 initialTasks.map taskMessage } :=
  ⟨rfl, rfl, run_unfold exec s hrun⟩

/-- C9 witness: two different goals decompose to the same fixed list, and a
fresh agent's `run` enters the loop with that list. -/
theorem claim_C9_witness :
    decomposeGoal "build a startup" = Except.ok initialTasks ∧
    decomposeGoal "write a poem" = Except.ok initialTasks ∧
    run (succExec fun _ => "ok") (mkAgent "g" msRemote none) =
      loop (succExec fun _ => "ok")
        { mkAgent "g" msRemote none with
            tasks := initialTasks,
            messages := (mkAgent "g" msRemote none).messages ++
              [goalMessage (mkAgent "g" msRemote none).goal, thinkingMessage] ++
              initialTasks.map taskMessage } :=
  ⟨(claim_C9 "build a startup" (succExec fun _ => "ok") (mkAgent "g" msRemote none) rfl).1,
   (claim_C9 "write a poem" (succExec fun _ => "ok") (mkAgent "g" msRemote none) rfl).1,
   (claim_C9 "g" (succExec fun _ => "ok") (mkAgent "g" msRemote none) rfl).2.2⟩

end StartRight
